import Mathlib

/-!
Shallow embedding of the venue-scout crowd-level pipeline.

Sources embedded here (the three copies of the scorer/classifier in
`src/app/page.tsx`, `src/unnamed/part_003` and `src/unnamed/part_004` are
textually identical; one definition stands for all three):
- `labelFromScore`, `labelToNumber` — src/unnamed/part_003 lines 4-16
- `computeDecayedScore` — src/app/page.tsx lines 37-79
- `confidenceFrom` — src/app/page.tsx lines 26-35
- `computeTrend` — src/app/page.tsx lines 82-106
- `predictLabel` — src/unnamed/part_004 lines 141-148
- baseline update — src/unnamed/part_001 lines 113-142
- submission guardrail — src/unnamed/part_001 lines 55-99
- alert evaluator loop body — src/unnamed/part_003 lines 161-205
- subscribe handler — src/unnamed/part_002 lines 39-104

JavaScript number arithmetic is embedded as real arithmetic; timestamps
(epoch milliseconds) are real numbers; `Math.round` is `round`,
`Math.ceil` is `Int.ceil`, `Math.abs` is `|·|`.
-/

namespace VenueScout

/-- The four ordered crowd labels (type `CrowdLabel` in the source). -/
inductive CrowdLabel
  | Low
  | Medium
  | High
  | Insane
deriving DecidableEq, Repr

/-- The three confidence levels (type `Confidence` in the source). -/
inductive Confidence
  | Low
  | Medium
  | High
deriving DecidableEq, Repr

/-- Trend indicator values returned by `computeTrend`. -/
inductive Trend
  | up
  | down
  | flat
  | unknown
deriving DecidableEq, Repr

/-- A stored report row as the scorer sees it: ordinal status plus the
`created_at` timestamp in epoch milliseconds. -/
structure Report where
  status : ℤ
  createdAt : ℝ

/-- Age of a report in minutes at instant `now`:
`(now - new Date(r.created_at).getTime()) / 60000`. -/
noncomputable def ageMin (now : ℝ) (r : Report) : ℝ :=
  (now - r.createdAt) / 60000

/-- `labelFromScore` (src/unnamed/part_003 lines 4-9). -/
noncomputable def labelFromScore (score : ℝ) : CrowdLabel :=
  if score < 1.6 then .Low
  else if score < 2.4 then .Medium
  else if score < 3.2 then .High
  else .Insane

/-- `labelToNumber` (src/unnamed/part_003 lines 11-16). -/
def labelToNumber : CrowdLabel → ℤ
  | .Low => 1
  | .Medium => 2
  | .High => 3
  | .Insane => 4

/-- Quick-consensus pass weight accumulator: only reports aged ≤ 30 minutes
contribute `exp(-ageMin/30)` (src/app/page.tsx lines 48-57). -/
noncomputable def quickWeightSum (now : ℝ) (reports : List Report) : ℝ :=
  (reports.map (fun r =>
    if ageMin now r ≤ 30 then Real.exp (-(ageMin now r) / 30) else 0)).sum

/-- Quick-consensus pass score accumulator (src/app/page.tsx lines 48-57). -/
noncomputable def quickScoreSum (now : ℝ) (reports : List Report) : ℝ :=
  (reports.map (fun r =>
    if ageMin now r ≤ 30 then Real.exp (-(ageMin now r) / 30) * r.status else 0)).sum

/-- The quick-consensus value: `round(weighted mean)` when the quick
weighted sum is positive, else the default 2 (src/app/page.tsx lines 45-62). -/
noncomputable def consensusNum (now : ℝ) (reports : List Report) : ℤ :=
  if reports.length > 0 ∧ 0 < quickWeightSum now reports then
    round (quickScoreSum now reports / quickWeightSum now reports)
  else 2

/-- Outlier-damping multiplier: 0.25 when the report's status differs from
the consensus by 2 or more levels, else 1.0 (src/app/page.tsx lines 70-71). -/
noncomputable def outlierMultiplier (c : ℤ) (r : Report) : ℝ :=
  if 2 ≤ |r.status - c| then 0.25 else 1.0

/-- Final-pass weight of one report: `exp(-ageMin/30) * outlierMultiplier`
(src/app/page.tsx lines 66-73). -/
noncomputable def finalWeight (now : ℝ) (c : ℤ) (r : Report) : ℝ :=
  Real.exp (-(ageMin now r) / 30) * outlierMultiplier c r

/-- Final-pass `weightSum` accumulator (src/app/page.tsx lines 65-76). -/
noncomputable def weightSum (now : ℝ) (reports : List Report) : ℝ :=
  (reports.map (finalWeight now (consensusNum now reports))).sum

/-- Final-pass `scoreSum` accumulator (src/app/page.tsx lines 65-76). -/
noncomputable def scoreSum (now : ℝ) (reports : List Report) : ℝ :=
  (reports.map (fun r =>
    finalWeight now (consensusNum now reports) r * r.status)).sum

/-- `computeDecayedScore` (src/app/page.tsx lines 37-79): the damped
exponentially-decayed weighted mean, defaulting to 2 on zero total weight. -/
noncomputable def computeDecayedScore (now : ℝ) (reports : List Report) : ℝ :=
  if 0 < weightSum now reports then scoreSum now reports / weightSum now reports
  else 2

/-- The undamped exponentially-weighted mean of the same reports, as the
spec's outlier-damping property describes it ("the undamped exponentially-
weighted mean"): weight `exp(-ageMin/30)` with no damping factor. -/
noncomputable def undampedScore (now : ℝ) (reports : List Report) : ℝ :=
  (reports.map (fun r => Real.exp (-(ageMin now r) / 30) * r.status)).sum /
    (reports.map (fun r => Real.exp (-(ageMin now r) / 30))).sum

/-- Current window of `computeTrend`: reports aged ≤ 30 minutes
(src/app/page.tsx lines 84-87). -/
noncomputable def currentWindow (now : ℝ) (reports : List Report) : List Report :=
  reports.filter (fun r => decide (ageMin now r ≤ 30))

/-- Previous window of `computeTrend`: reports aged in (30, 90] minutes
(src/app/page.tsx lines 89-92). -/
noncomputable def previousWindow (now : ℝ) (reports : List Report) : List Report :=
  reports.filter (fun r => decide (30 < ageMin now r ∧ ageMin now r ≤ 90))

/-- `computeTrend` (src/app/page.tsx lines 82-106): compares the decayed
score of the two windows, requiring at least 2 reports in each. -/
noncomputable def computeTrend (now : ℝ) (reports : List Report) : Trend :=
  if (currentWindow now reports).length < 2 ∨ (previousWindow now reports).length < 2 then
    .unknown
  else
    let diff := computeDecayedScore now (currentWindow now reports) -
      computeDecayedScore now (previousWindow now reports)
    if 0.25 ≤ diff then .up
    else if diff ≤ -0.25 then .down
    else .flat

/-- `confidenceFrom` (src/app/page.tsx lines 26-35): the age of the latest
report is rounded to whole minutes and clamped below at 0 before the
threshold checks. -/
noncomputable def confidenceFrom (latestCreatedAt : Option ℝ) (now : ℝ)
    (reportCount : ℕ) : Confidence :=
  match latestCreatedAt with
  | none => .Low
  | some t =>
    let ageRounded : ℤ := max 0 (round ((now - t) / 60000))
    if ageRounded ≤ 10 ∧ 3 ≤ reportCount then .High
    else if ageRounded ≤ 25 ∧ 2 ≤ reportCount then .Medium
    else .Low

/-- The confidence rule exactly as the spec words it (§4.3), applied to a
real-valued age — stated separately so it can be compared with the source
function `confidenceFrom`. -/
noncomputable def confidenceSpecRule (age : ℝ) (reportCount : ℕ) : Confidence :=
  if age ≤ 10 ∧ 3 ≤ reportCount then .High
  else if age ≤ 25 ∧ 2 ≤ reportCount then .Medium
  else .Low

/-- The predictor's blend (src/unnamed/part_004 lines 142-145):
current score when there is no baseline, else `0.55·baseline + 0.45·current`. -/
noncomputable def blendedScore (currentScore : ℝ) (baselineScore : Option ℝ) : ℝ :=
  match baselineScore with
  | none => currentScore
  | some b => 0.55 * b + 0.45 * currentScore

/-- `predictLabel` (src/unnamed/part_004 lines 141-148). -/
noncomputable def predictLabel (currentScore : ℝ) (baselineScore : Option ℝ) : CrowdLabel :=
  labelFromScore (blendedScore currentScore baselineScore)

/-- The baseline-bucket update of the report handler
(src/unnamed/part_001 lines 128-131): given the stored bucket (mean, n) or
`none` for an unseen bucket, and the accepted status `s`, produce the
upserted (mean, n). `prevMean = baseline?.mean_score ?? 2.0`,
`prevN = baseline?.n ?? 0`, `nextN = prevN + 1`,
`nextMean = (prevMean * prevN + s) / nextN`. -/
noncomputable def updateBaseline (baseline : Option (ℝ × ℤ)) (s : ℤ) : ℝ × ℤ :=
  let prevMean : ℝ := (baseline.map Prod.fst).getD 2.0
  let prevN : ℤ := (baseline.map Prod.snd).getD 0
  ((prevMean * prevN + s) / (prevN + 1), prevN + 1)

/-- `minutesBetween` (src/unnamed/part_001 lines 4-8): absolute difference
of two epoch-millisecond timestamps, in minutes. -/
noncomputable def minutesBetween (a b : ℝ) : ℝ :=
  |a - b| / 60000

/-- Outcome of the submission guardrail. -/
inductive GuardrailResult
  | accepted
  | rateLimited (wait : ℤ)
  | dailyCapped
deriving DecidableEq, Repr

/-- The submission guardrail (src/unnamed/part_001 lines 55-99):
`lastCreatedAt` is the `created_at` of the device's most recent report for
this venue (or `none`), `dailyCount` the device's report count since local
midnight. Guardrail A rejects when the age is < 10 minutes with
`wait = max(1, ceil(10 - ageMin))`; Guardrail B rejects when the daily
count has reached 20. -/
noncomputable def guardrailCheck (lastCreatedAt : Option ℝ) (now : ℝ)
    (dailyCount : ℤ) : GuardrailResult :=
  match lastCreatedAt with
  | some t =>
    if minutesBetween now t < 10 then
      .rateLimited (max 1 ⌈(10 : ℝ) - minutesBetween now t⌉)
    else if 20 ≤ dailyCount then .dailyCapped
    else .accepted
  | none =>
    if 20 ≤ dailyCount then .dailyCapped
    else .accepted

/-- Threshold test of the alert evaluator (src/unnamed/part_003 lines
176-184): threshold 2 fires on label ordinal ≤ 2, threshold 1 only on
label ordinal 1, any other threshold never fires. -/
def thresholdFires (threshold : ℤ) (labelNum : ℤ) : Bool :=
  if threshold = 2 then labelNum ≤ 2
  else if threshold = 1 then labelNum = 1
  else false

/-- Cooldown skip of the alert evaluator (src/unnamed/part_003 lines
162-169): skip when `last_triggered_at` is set and fewer than 60 minutes
have elapsed. -/
noncomputable def cooldownBlocked (lastTriggeredAt : Option ℝ) (now : ℝ) : Bool :=
  match lastTriggeredAt with
  | none => false
  | some t => decide ((now - t) / 60000 < 60)

/-- One iteration of the alert evaluator's subscription loop
(src/unnamed/part_003 lines 161-205): `true` exactly when the subscription
triggers a notification this run. `reports` is the venue's report list
from the trailing 3-hour window (empty when the venue has none). -/
noncomputable def evalSubscription (lastTriggeredAt : Option ℝ) (threshold : ℤ)
    (reports : List Report) (now : ℝ) : Bool :=
  if cooldownBlocked lastTriggeredAt now then false
  else
    thresholdFires threshold
      (labelToNumber (labelFromScore (computeDecayedScore now reports)))

/-- A row of the `alert_subscriptions` table as the subscribe handler
touches it (src/unnamed/part_002). -/
structure SubRow where
  id : ℕ
  venueId : String
  deviceId : String
  threshold : ℤ
  active : Bool
  lastTriggeredAt : Option ℝ

/-- Whether a row carries the given (venue, device, threshold) triple. -/
def matchesTriple (v d : String) (th : ℤ) (r : SubRow) : Bool :=
  r.venueId = v && r.deviceId = d && r.threshold = th

/-- The subscribe handler (src/unnamed/part_002 lines 39-104) over a
list-of-rows model of the table. It selects rows matching the triple with
`active = true` (`maybeSingle`, so more than one match is an error,
modelled as `none`); if one exists it updates only that row's `active`
field to `true`, otherwise it inserts a fresh row for the triple with
`active = true`. -/
def subscribe (store : List SubRow) (v d : String) (th : ℤ)
    (freshId : ℕ) : Option (List SubRow) :=
  match store.filter (fun r => matchesTriple v d th r && r.active) with
  | [] => some (store ++ [⟨freshId, v, d, th, true, none⟩])
  | [e] => some (store.map (fun r => if r.id = e.id then { r with active := true } else r))
  | _ => none

/-- The spec's outlier-damping test input: 9 reports of status 1 and one
report of status 4, all at the same timestamp `t`. -/
def nineOnesOneFour (t : ℝ) : List Report :=
  [⟨1, t⟩, ⟨1, t⟩, ⟨1, t⟩, ⟨1, t⟩, ⟨1, t⟩, ⟨1, t⟩, ⟨1, t⟩, ⟨1, t⟩, ⟨1, t⟩, ⟨4, t⟩]

/-! ### Helper lemmas -/

theorem labelFromScore_low {s : ℝ} (h : s < 1.6) :
    labelFromScore s = CrowdLabel.Low := by
  unfold labelFromScore
  rw [if_pos h]

theorem labelFromScore_medium {s : ℝ} (h1 : 1.6 ≤ s) (h2 : s < 2.4) :
    labelFromScore s = CrowdLabel.Medium := by
  unfold labelFromScore
  rw [if_neg (not_lt.mpr h1), if_pos h2]

theorem computeDecayedScore_nil (now : ℝ) : computeDecayedScore now [] = 2 := by
  unfold computeDecayedScore weightSum
  simp

/-! ### Claims -/

/-- C8: the Predictor's blended signal equals the current signal when the
target bucket has no baseline, and `0.55·baseline + 0.45·current`
otherwise; for baseline mean 3.0 and current signal 1.0 the blend is 2.1
and the label is "Medium". -/
theorem predictor_blend_correct (c b : ℝ) :
    blendedScore c none = c ∧
    blendedScore c (some b) = 0.55 * b + 0.45 * c ∧
    blendedScore 1 (some 3) = 2.1 ∧
    predictLabel 1 (some 3) = CrowdLabel.Medium := by
  refine ⟨rfl, rfl, by norm_num [blendedScore], ?_⟩
  unfold predictLabel
  have h : blendedScore 1 (some 3) = 2.1 := by norm_num [blendedScore]
  rw [h]
  exact labelFromScore_medium (by norm_num) (by norm_num)

/-- C4: the Alert Evaluator never fires when `last_triggered_at` is set and
less than 60 minutes before `now`; with `last_triggered_at = now − 59 min`
it never fires, and with `now − 61 min` the cooldown does not block, so the
subscription fires exactly when its threshold condition is met. -/
theorem alert_cooldown (now : ℝ) (threshold : ℤ) (reports : List Report) :
    (∀ t : ℝ, (now - t) / 60000 < 60 →
      evalSubscription (some t) threshold reports now = false) ∧
    evalSubscription (some (now - 59 * 60000)) threshold reports now = false ∧
    evalSubscription (some (now - 61 * 60000)) threshold reports now =
      thresholdFires threshold
        (labelToNumber (labelFromScore (computeDecayedScore now reports))) := by
  have hblock : ∀ t : ℝ, (now - t) / 60000 < 60 →
      evalSubscription (some t) threshold reports now = false := by
    intro t ht
    simp [evalSubscription, cooldownBlocked, ht]
  refine ⟨hblock, hblock _ ?_, ?_⟩
  · rw [show now - (now - 59 * 60000) = 59 * 60000 by ring]
    norm_num
  · have hfree : ¬ ((now - (now - 61 * 60000)) / 60000 < 60) := by
      rw [show now - (now - 61 * 60000) = 61 * 60000 by ring]
      norm_num
    have hcb : cooldownBlocked (some (now - 61 * 60000)) now = false := by
      simp only [cooldownBlocked, decide_eq_false_iff_not]
      exact hfree
    unfold evalSubscription
    rw [hcb]
    simp

/-- Witness for `alert_cooldown`: at `now = 0`, `t = 0` the cooldown
hypothesis holds and the evaluator is blocked. -/
theorem alert_cooldown_witness :
    ((0 : ℝ) - 0) / 60000 < 60 ∧ evalSubscription (some (0 : ℝ)) 2 [] 0 = false :=
  ⟨by norm_num, (alert_cooldown 0 2 []).1 0 (by norm_num)⟩

/-- C10: with zero reports in the window the evaluator computes signal 2.0
and label "Medium" (ordinal 2), so an out-of-cooldown subscription with
threshold 2 triggers despite there being no data. -/
theorem no_data_alert (now : ℝ) (last : Option ℝ)
    (h : ∀ t, last = some t → 60 ≤ (now - t) / 60000) :
    computeDecayedScore now [] = 2 ∧
    labelFromScore (computeDecayedScore now []) = CrowdLabel.Medium ∧
    evalSubscription last 2 [] now = true := by
  have hscore := computeDecayedScore_nil now
  have hlabel : labelFromScore 2 = CrowdLabel.Medium :=
    labelFromScore_medium (by norm_num) (by norm_num)
  have hcb : cooldownBlocked last now = false := by
    cases last with
    | none => rfl
    | some t =>
      simp only [cooldownBlocked, decide_eq_false_iff_not, not_lt]
      exact h t rfl
  refine ⟨hscore, by rw [hscore]; exact hlabel, ?_⟩
  simp [evalSubscription, hcb, hscore, hlabel, thresholdFires, labelToNumber]

/-- Witness for `no_data_alert`: instantiated at `now = 0` with no previous
trigger. -/
theorem no_data_alert_witness :
    (∀ t : ℝ, (none : Option ℝ) = some t → 60 ≤ ((0 : ℝ) - t) / 60000) ∧
    evalSubscription none 2 [] 0 = true :=
  ⟨(fun t ht => by cases ht),
    (no_data_alert 0 none (fun t ht => by cases ht)).2.2⟩

/-- C5: the Baseline Tracker's update computes
`mean' = (mean·n + s)/(n+1)` and `n' = n+1`, seeds unseen buckets at
`(mean = 2.0, n = 0)`, and preserves the invariant: the mean stays in
[1,4] and the count is non-negative and strictly grows. -/
theorem baseline_update (m : ℝ) (n s : ℤ)
    (hm : 1 ≤ m ∧ m ≤ 4) (hn : 0 ≤ n) (hs : s ∈ ({1, 2, 3, 4} : Set ℤ)) :
    updateBaseline (some (m, n)) s = ((m * n + s) / (n + 1), n + 1) ∧
    updateBaseline none s = updateBaseline (some (2.0, 0)) s ∧
    1 ≤ (updateBaseline (some (m, n)) s).1 ∧
    (updateBaseline (some (m, n)) s).1 ≤ 4 ∧
    0 ≤ (updateBaseline (some (m, n)) s).2 ∧
    n < (updateBaseline (some (m, n)) s).2 := by
  have heq : updateBaseline (some (m, n)) s = ((m * n + s) / (n + 1), n + 1) := rfl
  have hs14 : (1 : ℝ) ≤ (s : ℝ) ∧ (s : ℝ) ≤ 4 := by
    simp only [Set.mem_insert_iff, Set.mem_singleton_iff] at hs
    rcases hs with rfl | rfl | rfl | rfl <;> norm_num
  have hnR : (0 : ℝ) ≤ (n : ℝ) := by exact_mod_cast hn
  have hpos : (0 : ℝ) < (n : ℝ) + 1 := by linarith
  refine ⟨heq, rfl, ?_, ?_, ?_, ?_⟩
  · show (1 : ℝ) ≤ (m * n + s) / (n + 1)
    rw [le_div_iff₀ hpos]
    nlinarith [mul_nonneg (sub_nonneg.mpr hm.1) hnR, hs14.1]
  · show (m * (n : ℝ) + s) / (n + 1) ≤ 4
    rw [div_le_iff₀ hpos]
    nlinarith [mul_nonneg (sub_nonneg.mpr (by linarith [hm.2] : (0:ℝ) ≤ 4 - m)) hnR, hs14.2]
  · show (0 : ℤ) ≤ n + 1
    omega
  · show n < n + 1
    omega

/-- Witness for `baseline_update`: bucket (mean 2, n 5), new status 3. -/
theorem baseline_update_witness :
    ((1 : ℝ) ≤ 2 ∧ (2 : ℝ) ≤ 4) ∧ (0 : ℤ) ≤ 5 ∧ (3 : ℤ) ∈ ({1, 2, 3, 4} : Set ℤ) ∧
    (1 ≤ (updateBaseline (some (2, 5)) 3).1 ∧ (updateBaseline (some (2, 5)) 3).1 ≤ 4) :=
  ⟨⟨by norm_num, by norm_num⟩, by norm_num, by norm_num,
    ⟨(baseline_update 2 5 3 ⟨by norm_num, by norm_num⟩ (by norm_num) (by norm_num)).2.2.1,
     (baseline_update 2 5 3 ⟨by norm_num, by norm_num⟩ (by norm_num) (by norm_num)).2.2.2.1⟩⟩

/-- C6: the Submission Guardrail rejects exactly when the device's most
recent report for the venue is less than 10 minutes old, with
`wait = max(1, ceil(10 − ageMinutes))`; a resubmission 9 minutes after the
previous report is rejected with wait 1, and one 11 minutes after is
accepted when the daily cap is not reached. -/
theorem guardrail_cooldown (t now : ℝ) (c : ℤ) (hc : c < 20) :
    ((∃ w, guardrailCheck (some t) now c = .rateLimited w) ↔
      minutesBetween now t < 10) ∧
    (∀ w, guardrailCheck (some t) now c = .rateLimited w →
      w = max 1 ⌈(10 : ℝ) - minutesBetween now t⌉) ∧
    guardrailCheck (some (now - 9 * 60000)) now c = .rateLimited 1 ∧
    guardrailCheck (some (now - 11 * 60000)) now c = .accepted := by
  have hval : ∀ u : ℝ, guardrailCheck (some u) now c =
      (if minutesBetween now u < 10 then
        GuardrailResult.rateLimited (max 1 ⌈(10 : ℝ) - minutesBetween now u⌉)
      else .accepted) := by
    intro u
    unfold guardrailCheck
    rw [if_neg (not_le.mpr hc)]
  have h9 : minutesBetween now (now - 9 * 60000) = 9 := by
    unfold minutesBetween
    rw [show now - (now - 9 * 60000) = 9 * 60000 by ring, abs_of_pos (by norm_num)]
    norm_num
  have h11 : minutesBetween now (now - 11 * 60000) = 11 := by
    unfold minutesBetween
    rw [show now - (now - 11 * 60000) = 11 * 60000 by ring, abs_of_pos (by norm_num)]
    norm_num
  refine ⟨⟨?_, ?_⟩, ?_, ?_, ?_⟩
  · rintro ⟨w, hw⟩
    rw [hval] at hw
    by_contra h
    rw [if_neg h] at hw
    exact GuardrailResult.noConfusion hw
  · intro h
    exact ⟨_, by rw [hval, if_pos h]⟩
  · intro w hw
    rw [hval] at hw
    by_cases h : minutesBetween now t < 10
    · rw [if_pos h] at hw
      exact (GuardrailResult.rateLimited.injEq _ _).mp hw.symm
    · rw [if_neg h] at hw
      exact absurd hw (fun h' => GuardrailResult.noConfusion h')
  · rw [hval, h9, if_pos (by norm_num)]
    norm_num
  · rw [hval, h11, if_neg (by norm_num)]

/-- Witness for `guardrail_cooldown`: the 9-minute resubmission at
`now = 0`, daily count 0, is rejected with wait 1. -/
theorem guardrail_cooldown_witness :
    (0 : ℤ) < 20 ∧
    guardrailCheck (some ((0 : ℝ) - 9 * 60000)) 0 0 = .rateLimited 1 :=
  ⟨by norm_num, (guardrail_cooldown 0 0 0 (by norm_num)).2.2.1⟩

/-- C9: the Trend Detector returns `unknown` whenever either window holds
fewer than 2 reports; in particular it returns `unknown` whenever every
report is older than 90 minutes. -/
theorem trend_insufficient_data (now : ℝ) (reports : List Report) :
    ((currentWindow now reports).length < 2 ∨
        (previousWindow now reports).length < 2 →
      computeTrend now reports = .unknown) ∧
    ((∀ r ∈ reports, 90 < ageMin now r) → computeTrend now reports = .unknown) := by
  have h1 : (currentWindow now reports).length < 2 ∨
      (previousWindow now reports).length < 2 →
      computeTrend now reports = .unknown := by
    intro h
    unfold computeTrend
    rw [if_pos h]
  refine ⟨h1, ?_⟩
  intro h
  apply h1
  left
  have hcur : currentWindow now reports = [] := by
    unfold currentWindow
    rw [List.filter_eq_nil_iff]
    intro r hr
    simp only [decide_eq_true_eq, not_le]
    exact lt_of_le_of_lt (by norm_num) (h r hr)
  rw [hcur]
  norm_num

/-- Witness for `trend_insufficient_data`: the empty report set (all its
reports vacuously older than 90 minutes) yields `unknown`. -/
theorem trend_insufficient_data_witness :
    (∀ r ∈ ([] : List Report), 90 < ageMin 0 r) ∧
    computeTrend 0 [] = .unknown :=
  ⟨(fun r hr => by cases hr),
    (trend_insufficient_data 0 []).2 (fun r hr => by cases hr)⟩

/-- C7 counterexample: at a raw age of 10.4 minutes with 3 reports the
code returns "High" (it rounds the age to 10 before the `≤ 10` check),
while the claim's rule on the real-valued age returns "Medium". -/
theorem confidence_raw_age_counterexample :
    confidenceFrom (some 0) 624000 3 = Confidence.High ∧
    confidenceSpecRule ((624000 - 0) / 60000) 3 = Confidence.Medium ∧
    confidenceFrom (some 0) 624000 3 ≠ confidenceSpecRule ((624000 - 0) / 60000) 3 := by
  have hround : round (((624000 : ℝ) - 0) / 60000) = 10 := by
    rw [show ((624000 : ℝ) - 0) / 60000 = 52 / 5 by norm_num, round_eq]
    rw [show (52 : ℝ) / 5 + 1 / 2 = 109 / 10 by norm_num]
    exact Int.floor_eq_iff.mpr ⟨by norm_num, by norm_num⟩
  have h1 : confidenceFrom (some 0) 624000 3 = Confidence.High := by
    show (if max 0 (round (((624000 : ℝ) - 0) / 60000)) ≤ 10 ∧ 3 ≤ 3 then
        Confidence.High
      else if max 0 (round (((624000 : ℝ) - 0) / 60000)) ≤ 25 ∧ 2 ≤ 3 then
        Confidence.Medium
      else Confidence.Low) = Confidence.High
    rw [hround]
    norm_num
  have h2 : confidenceSpecRule (((624000 : ℝ) - 0) / 60000) 3 = Confidence.Medium := by
    unfold confidenceSpecRule
    rw [if_neg (by norm_num), if_pos (by norm_num)]
  exact ⟨h1, h2, by rw [h1, h2]; exact fun h => Confidence.noConfusion h⟩

/-- C7 amended: the Confidence Estimator applies the ordered rule to the
age rounded to the nearest whole minute (clamped below at 0), not to the
raw real-valued age; in terms of the raw age `a = (now − latest)/60000`
the effective cutoffs are therefore `a < 10.5` and `a < 25.5`. -/
theorem confidence_rounded_rule (t now : ℝ) (count : ℕ) :
    confidenceFrom none now count = Confidence.Low ∧
    confidenceFrom (some t) now count =
      confidenceSpecRule ((max 0 (round ((now - t) / 60000)) : ℤ) : ℝ) count ∧
    (confidenceFrom (some t) now count = Confidence.High ↔
      (now - t) / 60000 < 10.5 ∧ 3 ≤ count) ∧
    (confidenceFrom (some t) now count = Confidence.Medium ↔
      ¬((now - t) / 60000 < 10.5 ∧ 3 ≤ count) ∧
        ((now - t) / 60000 < 25.5 ∧ 2 ≤ count)) := by
  have hsome : ∀ cnt : ℕ, confidenceFrom (some t) now cnt =
      (if max 0 (round ((now - t) / 60000)) ≤ 10 ∧ 3 ≤ cnt then Confidence.High
      else if max 0 (round ((now - t) / 60000)) ≤ 25 ∧ 2 ≤ cnt then Confidence.Medium
      else Confidence.Low) := fun _ => rfl
  have key : ∀ z : ℤ, 0 ≤ z → ∀ b : ℝ, (z : ℝ) + 1 / 2 = b →
      (max 0 (round ((now - t) / 60000)) ≤ z ↔ (now - t) / 60000 < b) := by
    intro z hz b hb
    rw [max_le_iff, round_eq, Int.floor_le_iff]
    constructor
    · intro h
      linarith [h.2]
    · intro h
      exact ⟨hz, by linarith⟩
  have k10 := key 10 (by norm_num) 10.5 (by norm_num)
  have k25 := key 25 (by norm_num) 25.5 (by norm_num)
  have hA : (max 0 (round ((now - t) / 60000)) ≤ 10 ∧ 3 ≤ count) ↔
      ((now - t) / 60000 < 10.5 ∧ 3 ≤ count) := and_congr_left' k10
  have hB : (max 0 (round ((now - t) / 60000)) ≤ 25 ∧ 2 ≤ count) ↔
      ((now - t) / 60000 < 25.5 ∧ 2 ≤ count) := and_congr_left' k25
  refine ⟨rfl, ?_, ?_, ?_⟩
  · rw [hsome]
    unfold confidenceSpecRule
    have c10 : (((max 0 (round ((now - t) / 60000)) : ℤ) : ℝ) ≤ 10) ↔
        (max 0 (round ((now - t) / 60000)) ≤ (10 : ℤ)) := by
      exact_mod_cast Iff.rfl
    have c25 : (((max 0 (round ((now - t) / 60000)) : ℤ) : ℝ) ≤ 25) ↔
        (max 0 (round ((now - t) / 60000)) ≤ (25 : ℤ)) := by
      exact_mod_cast Iff.rfl
    simp only [c10, c25]
  · rw [hsome]
    by_cases h1 : (now - t) / 60000 < 10.5 ∧ 3 ≤ count
    · rw [if_pos (hA.mpr h1)]
      exact iff_of_true rfl h1
    · rw [if_neg (fun hc => h1 (hA.mp hc))]
      constructor
      · intro h
        exfalso
        revert h
        split
        · exact fun h => Confidence.noConfusion h
        · exact fun h => Confidence.noConfusion h
      · intro h
        exact absurd h h1
  · rw [hsome]
    by_cases h1 : (now - t) / 60000 < 10.5 ∧ 3 ≤ count
    · rw [if_pos (hA.mpr h1)]
      refine iff_of_false (fun h => Confidence.noConfusion h) ?_
      rintro ⟨hn, _⟩
      exact hn h1
    · rw [if_neg (fun hc => h1 (hA.mp hc))]
      by_cases h2 : (now - t) / 60000 < 25.5 ∧ 2 ≤ count
      · rw [if_pos (hB.mpr h2)]
        exact iff_of_true rfl ⟨h1, h2⟩
      · rw [if_neg (fun hc => h2 (hB.mp hc))]
        refine iff_of_false (fun h => Confidence.noConfusion h) ?_
        rintro ⟨_, hc⟩
        exact h2 hc

theorem outlierMultiplier_pos (c : ℤ) (r : Report) : 0 < outlierMultiplier c r := by
  unfold outlierMultiplier
  split <;> norm_num

theorem finalWeight_pos (now : ℝ) (c : ℤ) (r : Report) : 0 < finalWeight now c r :=
  mul_pos (Real.exp_pos _) (outlierMultiplier_pos c r)

theorem weightSum_pos (now : ℝ) (reports : List Report) (h : reports ≠ []) :
    0 < weightSum now reports := by
  unfold weightSum
  apply List.sum_pos
  · intro x hx
    obtain ⟨r, _, rfl⟩ := List.mem_map.mp hx
    exact finalWeight_pos _ _ _
  · simpa using h

theorem weightSum_le_scoreSum (now : ℝ) (reports : List Report)
    (h : ∀ r ∈ reports, (1 : ℝ) ≤ (r.status : ℝ)) :
    weightSum now reports ≤ scoreSum now reports := by
  unfold weightSum scoreSum
  apply List.sum_le_sum
  intro r hr
  have hw := finalWeight_pos now (consensusNum now reports) r
  nlinarith [h r hr]

theorem scoreSum_le_four_mul (now : ℝ) (reports : List Report)
    (h : ∀ r ∈ reports, (r.status : ℝ) ≤ 4) :
    scoreSum now reports ≤ 4 * weightSum now reports := by
  unfold weightSum scoreSum
  rw [← List.sum_map_mul_left]
  apply List.sum_le_sum
  intro r hr
  have hw := finalWeight_pos now (consensusNum now reports) r
  nlinarith [h r hr]

/-- C3: the decayed-consensus score of any non-empty list of reports with
statuses in {1,2,3,4} lies in [1,4]; on the empty list (and whenever the
total weight is not positive) it is exactly 2, which the Label Classifier
maps to "Medium". -/
theorem signal_range (now : ℝ) (reports : List Report)
    (hne : reports ≠ [])
    (hs : ∀ r ∈ reports, r.status ∈ ({1, 2, 3, 4} : Set ℤ)) :
    computeDecayedScore now [] = 2 ∧
    labelFromScore (computeDecayedScore now []) = CrowdLabel.Medium ∧
    (∀ rs : List Report, weightSum now rs ≤ 0 → computeDecayedScore now rs = 2) ∧
    1 ≤ computeDecayedScore now reports ∧ computeDecayedScore now reports ≤ 4 := by
  have hb : ∀ r ∈ reports, (1 : ℝ) ≤ (r.status : ℝ) ∧ (r.status : ℝ) ≤ 4 := by
    intro r hr
    have hmem := hs r hr
    simp only [Set.mem_insert_iff, Set.mem_singleton_iff] at hmem
    rcases hmem with h | h | h | h <;> rw [h] <;> norm_num
  have hpos := weightSum_pos now reports hne
  refine ⟨computeDecayedScore_nil now, ?_, ?_, ?_, ?_⟩
  · rw [computeDecayedScore_nil now]
    exact labelFromScore_medium (by norm_num) (by norm_num)
  · intro rs h
    unfold computeDecayedScore
    rw [if_neg (not_lt.mpr h)]
  · unfold computeDecayedScore
    rw [if_pos hpos, le_div_iff₀ hpos]
    have := weightSum_le_scoreSum now reports (fun r hr => (hb r hr).1)
    linarith
  · unfold computeDecayedScore
    rw [if_pos hpos, div_le_iff₀ hpos]
    have := scoreSum_le_four_mul now reports (fun r hr => (hb r hr).2)
    linarith

/-- Witness for `signal_range`: a single status-2 report at age 0. -/
theorem signal_range_witness :
    ([⟨2, 0⟩] : List Report) ≠ [] ∧
    (∀ r ∈ ([⟨2, 0⟩] : List Report), r.status ∈ ({1, 2, 3, 4} : Set ℤ)) ∧
    1 ≤ computeDecayedScore 0 [⟨2, 0⟩] ∧ computeDecayedScore 0 [⟨2, 0⟩] ≤ 4 := by
  have hne : ([⟨2, 0⟩] : List Report) ≠ [] := by simp
  have hs : ∀ r ∈ ([⟨2, 0⟩] : List Report), r.status ∈ ({1, 2, 3, 4} : Set ℤ) := by
    intro r hr
    simp only [List.mem_singleton] at hr
    rw [hr]
    simp [Set.mem_insert_iff]
  exact ⟨hne, hs, (signal_range 0 _ hne hs).2.2.2.1, (signal_range 0 _ hne hs).2.2.2.2⟩

/-- C2: in the final pass each report's weight is the decayed weight times
exactly 0.25 when its status differs from the quick consensus by 2 or more
levels (times 1.0 otherwise); and for 9 reports of status 1 plus one of
status 4 at the same recent timestamp, the damped signal is strictly
closer to 1 than the undamped exponentially-weighted mean. -/
theorem outlier_damping (t now : ℝ)
    (h0 : 0 ≤ (now - t) / 60000) (h30 : (now - t) / 60000 ≤ 30) :
    (∀ (c : ℤ) (r : Report),
      (2 ≤ |r.status - c| →
        finalWeight now c r = Real.exp (-(ageMin now r) / 30) * 0.25) ∧
      (|r.status - c| < 2 →
        finalWeight now c r = Real.exp (-(ageMin now r) / 30) * 1)) ∧
    |computeDecayedScore now (nineOnesOneFour t) - 1| <
      |undampedScore now (nineOnesOneFour t) - 1| := by
  constructor
  · intro c r
    constructor
    · intro h
      unfold finalWeight outlierMultiplier
      rw [if_pos h]
    · intro h
      unfold finalWeight outlierMultiplier
      rw [if_neg (not_le.mpr h)]
      norm_num
  · set a := (now - t) / 60000 with ha
    have hage : ∀ s : ℤ, ageMin now ⟨s, t⟩ = a := fun _ => rfl
    set E := Real.exp (-a / 30) with hE
    have hEpos : 0 < E := Real.exp_pos _
    have hq : quickWeightSum now (nineOnesOneFour t) = 10 * E := by
      unfold quickWeightSum nineOnesOneFour
      simp only [List.map_cons, List.map_nil, List.sum_cons, List.sum_nil, hage,
        if_pos h30, ← hE]
      ring
    have hqs : quickScoreSum now (nineOnesOneFour t) = 13 * E := by
      unfold quickScoreSum nineOnesOneFour
      simp only [List.map_cons, List.map_nil, List.sum_cons, List.sum_nil, hage,
        if_pos h30, ← hE]
      push_cast
      ring
    have hcons : consensusNum now (nineOnesOneFour t) = 1 := by
      unfold consensusNum
      rw [if_pos ⟨by simp [nineOnesOneFour], by rw [hq]; positivity⟩, hq, hqs]
      rw [show 13 * E / (10 * E) = 13 / 10 by field_simp; ring]
      rw [round_eq, show (13 : ℝ) / 10 + 1 / 2 = 9 / 5 by norm_num]
      exact Int.floor_eq_iff.mpr ⟨by norm_num, by norm_num⟩
    have hws : weightSum now (nineOnesOneFour t) = (37 / 4) * E := by
      unfold weightSum
      rw [hcons]
      unfold nineOnesOneFour
      simp only [List.map_cons, List.map_nil, List.sum_cons, List.sum_nil,
        finalWeight, outlierMultiplier, hage, ← hE]
      norm_num
      ring
    have hss : scoreSum now (nineOnesOneFour t) = 10 * E := by
      unfold scoreSum
      rw [hcons]
      unfold nineOnesOneFour
      simp only [List.map_cons, List.map_nil, List.sum_cons, List.sum_nil,
        finalWeight, outlierMultiplier, hage, ← hE]
      norm_num
      ring
    have hscore : computeDecayedScore now (nineOnesOneFour t) = 40 / 37 := by
      unfold computeDecayedScore
      rw [hws, hss, if_pos (by positivity)]
      field_simp
      ring
    have hun : undampedScore now (nineOnesOneFour t) = 13 / 10 := by
      unfold undampedScore nineOnesOneFour
      simp only [List.map_cons, List.map_nil, List.sum_cons, List.sum_nil, hage, ← hE]
      push_cast
      rw [show E * 1 + (E * 1 + (E * 1 + (E * 1 + (E * 1 + (E * 1 + (E * 1 +
          (E * 1 + (E * 1 + (E * 4 + 0))))))))) = 13 * E by ring,
        show E + (E + (E + (E + (E + (E + (E + (E + (E + (E + 0))))))))) = 10 * E by ring]
      field_simp
      ring
    rw [hscore, hun]
    rw [show (40 : ℝ) / 37 - 1 = 3 / 37 by norm_num,
      show (13 : ℝ) / 10 - 1 = 3 / 10 by norm_num]
    rw [abs_of_pos (by norm_num), abs_of_pos (by norm_num)]
    norm_num

/-- Witness for `outlier_damping`: the ten reports at timestamp 0
evaluated at `now = 0` (age 0 ≤ 30 minutes). -/
theorem outlier_damping_witness :
    (0 : ℝ) ≤ ((0 : ℝ) - 0) / 60000 ∧ ((0 : ℝ) - 0) / 60000 ≤ 30 ∧
    |computeDecayedScore 0 (nineOnesOneFour 0) - 1| <
      |undampedScore 0 (nineOnesOneFour 0) - 1| :=
  ⟨by norm_num, by norm_num,
    (outlier_damping 0 0 (by norm_num) (by norm_num)).2⟩

/-- C1 evidence: re-subscribing while the triple's row is active leaves the
single row unchanged, but subscribing while the triple's only row is
inactive takes the insert branch (the existence check filters on
`active = true`), leaving two rows for the triple instead of reactivating
the existing one — contradicting the upsert semantics the repository's own
schema (`UNIQUE(venue_id, device_id, threshold)`) and docs describe. -/
theorem subscribe_inactive_duplicate :
    subscribe [⟨0, "v", "d", 2, true, none⟩] "v" "d" 2 1 =
      some [⟨0, "v", "d", 2, true, none⟩] ∧
    subscribe [⟨0, "v", "d", 2, false, none⟩] "v" "d" 2 1 =
      some [⟨0, "v", "d", 2, false, none⟩, ⟨1, "v", "d", 2, true, none⟩] ∧
    (([⟨0, "v", "d", 2, false, none⟩, ⟨1, "v", "d", 2, true, none⟩] : List SubRow).filter
      (matchesTriple "v" "d" 2)).length = 2 := by
  refine ⟨rfl, rfl, rfl⟩

end VenueScout
